import Mathlib

/-!
Shallow embedding of the pipeline orchestration route of the Agentic Studio
repository (source file: the Next.js route handler, `src/unnamed/part_000`).

External effects (OpenAI chat, speech and image services, ffmpeg muxing,
filesystem operations, YouTube upload) are modelled by an `Oracle` record that
fixes the outcome of each external call of one run: every outcome is an
`Except ExnVal _` value, where `ExnVal = Option String` represents a thrown
JavaScript value (`some msg` is an `Error` with that message, `none` is a
non-`Error` throw).  Buffers are modelled as `List Nat` (byte lists); strings
are Lean `String`s (UTF-16 index arithmetic of JavaScript is abstracted to
code points).  IEEE-754 arithmetic in a progress message is abstracted to
exact rational rounding; none of the claims depend on it.
-/

deriving instance DecidableEq for Except

namespace Agentic

/-- Thrown JavaScript value: `some msg` models an `Error` whose `.message` is
`msg`; `none` models a thrown value that is not an `Error` instance. -/
abbrev ExnVal := Option String

/-- Message extraction of the catch block (source lines 384-385):
`error instanceof Error ? error.message : "An unexpected error occurred."`. -/
def messageOf : ExnVal → String
  | some m => m
  | none => "An unexpected error occurred."

/-- StepStatus union type (source line 16). -/
inductive StepStatus where
  | idle
  | working
  | done
  | error
deriving DecidableEq, Repr

/-- StepLog entry (source lines 18-23); `detail` is the optional field. -/
structure StepLog where
  id : String
  label : String
  status : StepStatus
  detail : Option String
deriving DecidableEq, Repr

/-- STEP_TEMPLATE (source lines 25-46): the four canonical stages, all idle,
with no detail. -/
def STEP_TEMPLATE : List StepLog :=
  [ { id := "script", label := "Generate base script", status := .idle, detail := none },
    { id := "enhance", label := "Enhance script", status := .idle, detail := none },
    { id := "video", label := "Render video", status := .idle, detail := none },
    { id := "upload", label := "Publish to YouTube", status := .idle, detail := none } ]

/-- cloneStepLog (source lines 69-71): a fresh per-run copy of the template;
the JavaScript object spread becomes a field-by-field rebuild. -/
def cloneStepLog : List StepLog :=
  STEP_TEMPLATE.map (fun step => ⟨step.id, step.label, step.status, step.detail⟩)

/-- setStepStatus (source lines 73-80): find the first entry with the given id
and overwrite its status and detail; when no entry matches, do nothing. -/
def setStepStatus : List StepLog → String → StepStatus → Option String → List StepLog
  | [], _, _, _ => []
  | entry :: rest, id, status, detail =>
    if entry.id = id then
      { entry with status := status, detail := detail } :: rest
    else
      entry :: setStepStatus rest id status detail

/-- Test of the `log.find((step) => step.status === "working")` predicate
(source line 386). -/
def isWorking (s : StepLog) : Bool :=
  match s.status with
  | .working => true
  | _ => false

/-- REQUIRED_ENV_VARS (source lines 56-61). -/
def REQUIRED_ENV_VARS : List String :=
  ["OPENAI_API_KEY", "GOOGLE_CLIENT_ID", "GOOGLE_CLIENT_SECRET", "GOOGLE_REFRESH_TOKEN"]

/-- JavaScript truthiness of an optional string: `undefined` and `""` are
falsy, every other string is truthy. -/
def jsTruthyStr : Option String → Bool
  | none => false
  | some s => !(s == "")

/-- ensureEnv (source lines 82-84): the required variable names whose value is
missing (falsy) in the process environment, in declaration order. -/
def ensureEnv (env : String → Option String) : List String :=
  REQUIRED_ENV_VARS.filter (fun key => !jsTruthyStr (env key))

/-- Validated request body (source lines 48-54); `durationSeconds` is modelled
as an integer (fractional JSON numbers are abstracted; no claim depends on
them). -/
structure RequestBody where
  topic : String
  tone : String
  durationSeconds : Int
  audience : String
  callToAction : String
deriving DecidableEq, Repr

/-- Issue messages produced by the zod schema of source lines 48-54 on a
well-typed body, in field order: the topic carries a custom message, the
remaining checks carry the default zod texts. -/
def validationIssues (r : RequestBody) : List String :=
  (if r.topic.length < 8 then ["Topic must be at least 8 characters."] else [])
  ++ (if r.tone.length < 3 then ["String must contain at least 3 character(s)"] else [])
  ++ (if r.tone.length > 64 then ["String must contain at most 64 character(s)"] else [])
  ++ (if r.durationSeconds < 30 then ["Number must be greater than or equal to 30"] else [])
  ++ (if r.durationSeconds > 900 then ["Number must be less than or equal to 900"] else [])
  ++ (if r.audience.length < 3 then ["String must contain at least 3 character(s)"] else [])
  ++ (if r.audience.length > 120 then ["String must contain at most 120 character(s)"] else [])
  ++ (if r.callToAction.length < 3 then ["String must contain at least 3 character(s)"] else [])
  ++ (if r.callToAction.length > 180 then ["String must contain at most 180 character(s)"] else [])

/-- Outcome of `await request.json()` succeeding: either a JSON value that
does not fit the object shape of the schema (with the zod issue messages the
mismatch produces), or a well-typed candidate body. -/
inductive ParsedJson where
  | malformed (issues : List String)
  | typed (r : RequestBody)
deriving DecidableEq, Repr

/-- requestSchema.safeParse (source line 293): shape mismatches report their
own issues; a well-typed body is accepted exactly when every range check of
the schema passes. -/
def safeParse : ParsedJson → Except (List String) RequestBody
  | .malformed issues => .error issues
  | .typed r =>
    match validationIssues r with
    | [] => .ok r
    | issues => .error issues

/-- Alphabet of standard base64. -/
def b64Alphabet : List Char :=
  "ABCDEFGHIJKLMNOPQRSTUVWXYZabcdefghijklmnopqrstuvwxyz0123456789+/".data

/-- Sextet value of a base64 character, when it is in the alphabet. -/
def b64CharVal (c : Char) : Option Nat :=
  b64Alphabet.findIdx? (fun x => x == c)

/-- Character of a sextet value. -/
def b64Char (n : Nat) : Char :=
  b64Alphabet.getD n 'A'

/-- Regroup decoded sextets into bytes; a trailing group of two or three
sextets yields one or two bytes, a lone trailing sextet is dropped. -/
def b64DecodeSextets : List Nat → List Nat
  | a :: b :: c :: d :: rest =>
    (a * 4 + b / 16) :: ((b % 16) * 16 + c / 4) :: ((c % 4) * 64 + d) :: b64DecodeSextets rest
  | [a, b] => [a * 4 + b / 16]
  | [a, b, c] => [a * 4 + b / 16, (b % 16) * 16 + c / 4]
  | _ => []

/-- Model of `Buffer.from(s, "base64")` (source line 191): lenient decoding
that ignores characters outside the alphabet (including padding). -/
def b64decode (s : String) : List Nat :=
  b64DecodeSextets (s.data.filterMap b64CharVal)

/-- Model of `buffer.toString("base64")` (source line 371): standard padded
base64 of a byte list. -/
def b64encode : List Nat → String
  | [] => ""
  | [a] =>
    String.mk [b64Char (a / 4), b64Char ((a % 4) * 16)] ++ "=="
  | [a, b] =>
    String.mk [b64Char (a / 4), b64Char ((a % 4) * 16 + b / 16), b64Char ((b % 16) * 4)] ++ "="
  | a :: b :: c :: rest =>
    String.mk [b64Char (a / 4), b64Char ((a % 4) * 16 + b / 16),
      b64Char ((b % 16) * 4 + c / 64), b64Char (c % 64)] ++ b64encode rest

/-- Split on maximal whitespace runs, keeping the empty pieces a leading or
trailing run produces, as `s.split(/\s+/)` does (source lines 313 and 326);
the JavaScript whitespace class is abstracted to `Char.isWhitespace`. -/
def jsSplitWsAux : List Char → List Char → List String
  | [], cur => [String.mk cur.reverse]
  | c :: rest, cur =>
    if c.isWhitespace then
      String.mk cur.reverse :: jsSplitWsAux (rest.dropWhile Char.isWhitespace) []
    else
      jsSplitWsAux rest (c :: cur)
termination_by l _ => l.length
decreasing_by
  · exact Nat.lt_succ_of_le (List.dropWhile_sublist _).length_le
  · exact Nat.lt_succ_of_le (Nat.le_refl _)

/-- Word list of `s.split(/\s+/)`. -/
def jsSplitWs (s : String) : List String :=
  jsSplitWsAux s.data []

/-- Megabyte text of `(bytes / (1024 * 1024)).toFixed(2)` (source line 341),
with the IEEE-754 division and decimal rounding abstracted to exact rational
rounding to the nearest hundredth. -/
def mbString (bytes : Nat) : String :=
  let hundredths := (bytes * 100 + 524288) / 1048576
  toString (hundredths / 100) ++ "."
    ++ (if hundredths % 100 < 10 then "0" else "") ++ toString (hundredths % 100)

/-- Model of `s.slice(0, n)` for a nonnegative bound (source lines 360-362):
the first `n` characters. -/
def jsSlice (s : String) (n : Nat) : String :=
  String.mk (s.data.take n)

/-- generateScriptDraft (source lines 86-127): the prompt payload sent to the
text service does not influence control flow and is abstracted; `resp` is the
outcome of the chat call, carrying `choices[0]?.message?.content`.  A falsy
content (absent or empty) throws. -/
def generateScriptDraft (resp : Except ExnVal (Option String)) : Except ExnVal String :=
  match resp with
  | .error e => .error e
  | .ok none => .error (some "Failed to generate script draft.")
  | .ok (some content) =>
    if content == "" then .error (some "Failed to generate script draft.")
    else .ok content

/-- enhanceScript (source lines 129-169): same shape as the draft call, with
its own failure message. -/
def enhanceScript (resp : Except ExnVal (Option String)) : Except ExnVal String :=
  match resp with
  | .error e => .error e
  | .ok none => .error (some "Failed to enhance script.")
  | .ok (some content) =>
    if content == "" then .error (some "Failed to enhance script.")
    else .ok content

/-- generateAssets (source lines 171-194).  `speechResp` is the settled speech
call (its byte payload on success), `imageResp` the settled image call (the
`data?.[0]?.b64_json` field on success).  `Promise.all` rejects with the first
rejection to settle; the model resolves that race deterministically in favour
of the speech call (no claim depends on the choice).  A falsy image payload
(absent or empty) throws before any file 1/0; the audio payload is NOT
validated. -/
def generateAssets (speechResp : Except ExnVal (List Nat))
    (imageResp : Except ExnVal (Option String)) : Except ExnVal (List Nat × List Nat) :=
  match speechResp, imageResp with
  | .error e, _ => .error e
  | .ok _, .error e => .error e
  | .ok audioBuffer, .ok imagePayload =>
    match imagePayload with
    | none => .error (some "Image generation failed.")
    | some b64 =>
      if b64 == "" then .error (some "Image generation failed.")
      else .ok (audioBuffer, b64decode b64)

/-- Outcomes of the filesystem and muxing operations of one synthesizeVideo
call (source lines 196-229). -/
structure ComposerOracle where
  mkdtemp : Except ExnVal Unit
  writeAudio : Except ExnVal Unit
  writeImage : Except ExnVal Unit
  muxing : Except ExnVal Unit
  readVideo : Except ExnVal (List Nat)
  rm : Except ExnVal Unit
deriving DecidableEq, Repr

/-- Observable outcome of one synthesizeVideo call: the returned or thrown
value, whether the cleanup deletion was invoked, and whether the temporary
directory still exists after the call. -/
structure ComposerResult where
  result : Except ExnVal (List Nat)
  rmInvoked : Bool
  tempDirExists : Bool
deriving DecidableEq, Repr

/-- Body of the try block of synthesizeVideo (source lines 202-225): write the
two input files, run the muxing promise, read the produced video back. -/
def composerBody (co : ComposerOracle) : Except ExnVal (List Nat) :=
  match co.writeAudio with
  | .error e => .error e
  | .ok _ =>
    match co.writeImage with
    | .error e => .error e
    | .ok _ =>
      match co.muxing with
      | .error e => .error e
      | .ok _ => co.readVideo

/-- synthesizeVideo (source lines 196-229).  `mkdtemp` runs before the try
block: when it throws, no directory exists and the finally block never runs.
Otherwise the finally block always runs
`fs.rm(tempDir, { recursive: true, force: true }).catch(() => undefined)`:
the deletion is invoked on every exit path, its own rejection is swallowed,
and the body result is returned or rethrown unchanged. -/
def synthesizeVideo (audioBuffer imageBuffer : List Nat) (co : ComposerOracle) :
    ComposerResult :=
  match co.mkdtemp with
  | .error e => { result := .error e, rmInvoked := false, tempDirExists := false }
  | .ok _ =>
    let body := composerBody co
    let rmOk := match co.rm with | .ok _ => true | .error _ => false
    { result := body, rmInvoked := true, tempDirExists := !rmOk }

/-- Canonical watch URL (source line 273). -/
def youtubeWatchUrl (videoId : String) : String :=
  "https://www.youtube.com/watch?v=" ++ videoId

/-- uploadToYouTube (source lines 231-274).  The OAuth client construction and
request payload are abstracted; `resp` is the settled insert call carrying
`response.data.id`.  A falsy id (absent or empty) throws; otherwise the watch
URL of the id is returned. -/
def uploadToYouTube (title description : String) (tags : List String)
    (videoBuffer : List Nat) (resp : Except ExnVal (Option String)) :
    Except ExnVal String :=
  match resp with
  | .error e => .error e
  | .ok none => .error (some "Unable to retrieve YouTube video ID after upload.")
  | .ok (some videoId) =>
    if videoId == "" then .error (some "Unable to retrieve YouTube video ID after upload.")
    else .ok (youtubeWatchUrl videoId)

/-- Video title before truncation (source line 350). -/
def videoTitle (topic tone : String) : String :=
  topic ++ " | " ++ tone ++ " explainer"

/-- Video description before truncation (source lines 351-356). -/
def videoDescription (enhancedScript callToAction audience : String) : String :=
  enhancedScript ++ "\n\n---\nCall to action: " ++ callToAction
    ++ "\nAudience: " ++ audience ++ "\nAutomated by Agentic Studio."

/-- Title actually passed to the upload call: `videoTitle.slice(0, 95)`
(source line 360). -/
def uploadTitle (topic tone : String) : String :=
  jsSlice (videoTitle topic tone) 95

/-- Description actually passed to the upload call:
`videoDescription.slice(0, 4800)` (source line 361). -/
def uploadDescription (enhancedScript callToAction audience : String) : String :=
  jsSlice (videoDescription enhancedScript callToAction audience) 4800

/-- Tag list passed to the upload call (source line 362). -/
def uploadTags (topic : String) : List String :=
  ["AI", "Automation", "YouTube Agent", jsSlice topic 60]

/-- Outcomes of every external call one run can make, in program order. -/
structure Oracle where
  scriptContent : Except ExnVal (Option String)
  enhanceContent : Except ExnVal (Option String)
  speechAudio : Except ExnVal (List Nat)
  imagePayload : Except ExnVal (Option String)
  composer : ComposerOracle
  uploadVideoId : Except ExnVal (Option String)
deriving DecidableEq, Repr

/-- One tracker mutation: the arguments of one setStepStatus call. -/
structure Update where
  id : String
  status : StepStatus
  detail : Option String
deriving DecidableEq, Repr

/-- Apply one tracker mutation to a stage list. -/
def applyUpdate (log : List StepLog) (u : Update) : List StepLog :=
  setStepStatus log u.id u.status u.detail

/-- Successful response payload (source lines 373-382). -/
structure RunResult where
  scriptDraft : String
  enhancedScript : String
  videoUrl : String
  youtubeUrl : String
deriving DecidableEq, Repr

/-- The stage pipeline of the try block after validation (source lines
308-381), as the ordered list of setStepStatus calls it performs together
with its returned value or thrown exception.  Each `Update` is recorded in
source order; a thrown exception stops the run at that point. -/
def pipelineUpdates (r : RequestBody) (o : Oracle) :
    List Update × Except ExnVal RunResult :=
  let u1 : Update := ⟨"script", .working, some "Drafting narration..."⟩
  match generateScriptDraft o.scriptContent with
  | .error e => ([u1], .error e)
  | .ok scriptDraft =>
    let u2 : Update := ⟨"script", .done,
      some ("Draft complete (" ++ toString (jsSplitWs scriptDraft).length ++ " words).")⟩
    let u3 : Update := ⟨"enhance", .working, some "Polishing presentation..."⟩
    match enhanceScript o.enhanceContent with
    | .error e => ([u1, u2, u3], .error e)
    | .ok enhancedScript =>
      let u4 : Update := ⟨"enhance", .done,
        some ("Enhanced script ready (" ++ toString (jsSplitWs enhancedScript).length ++ " words).")⟩
      let u5 : Update := ⟨"video", .working, some "Rendering narration and visuals..."⟩
      match generateAssets o.speechAudio o.imagePayload with
      | .error e => ([u1, u2, u3, u4, u5], .error e)
      | .ok (audioBuffer, imageBuffer) =>
        match (synthesizeVideo audioBuffer imageBuffer o.composer).result with
        | .error e => ([u1, u2, u3, u4, u5], .error e)
        | .ok videoBuffer =>
          let u6 : Update := ⟨"video", .done,
            some ("Video rendered (" ++ mbString videoBuffer.length ++ " MB).")⟩
          let u7 : Update := ⟨"upload", .working, some "Uploading to YouTube..."⟩
          match uploadToYouTube (uploadTitle r.topic r.tone)
              (uploadDescription enhancedScript r.callToAction r.audience)
              (uploadTags r.topic) videoBuffer o.uploadVideoId with
          | .error e => ([u1, u2, u3, u4, u5, u6, u7], .error e)
          | .ok youtubeUrl =>
            let u8 : Update := ⟨"upload", .done, some ("Published to " ++ youtubeUrl ++ ".")⟩
            ([u1, u2, u3, u4, u5, u6, u7, u8],
              .ok { scriptDraft := scriptDraft, enhancedScript := enhancedScript,
                    videoUrl := "data:video/mp4;base64," ++ b64encode videoBuffer,
                    youtubeUrl := youtubeUrl })

/-- HTTP-style response of the route (source lines 282-302 and 373-397). -/
structure PostResponse where
  success : Bool
  error : Option String
  result : Option RunResult
  log : List StepLog
  status : Nat
deriving DecidableEq, Repr

/-- Catch block of POST (source lines 383-398): extract the message, mark the
stage currently working (when one exists) as error with that message, and
answer a 500 failure carrying the stage log. -/
def catchHandler (log : List StepLog) (e : ExnVal) : PostResponse :=
  let detail := messageOf e
  let logMarked :=
    match log.find? isWorking with
    | some failingStep => setStepStatus log failingStep.id .error (some detail)
    | none => log
  { success := false, error := some detail, result := none, log := logMarked, status := 500 }

/-- Continuation of POST once a validated body exists (source lines 305-397):
run the pipeline, fold its tracker updates over the fresh log, and answer the
success payload or route the thrown exception to the catch block. -/
def postValidated (r : RequestBody) (o : Oracle) : PostResponse :=
  match pipelineUpdates r o with
  | (updates, .ok res) =>
    { success := true, error := none, result := some res,
      log := updates.foldl applyUpdate cloneStepLog, status := 200 }
  | (updates, .error e) =>
    catchHandler (updates.foldl applyUpdate cloneStepLog) e

/-- Continuation of POST once the body parsed as JSON (source lines 293-303):
schema-check it and either answer a 400 failure with the joined issue
messages and the untouched log, or continue into the pipeline. -/
def postParsed (pj : ParsedJson) (o : Oracle) : PostResponse :=
  match safeParse pj with
  | .error issues =>
    { success := false, error := some (String.intercalate "; " issues),
      result := none, log := cloneStepLog, status := 400 }
  | .ok r => postValidated r o

/-- POST (source lines 276-399).  `env` is the process environment, `req` the
outcome of `await request.json()` (a rejection of the body read is a thrown
value handled by the catch block), `o` the outcomes of the external calls. -/
def POST (env : String → Option String) (req : Except ExnVal ParsedJson)
    (o : Oracle) : PostResponse :=
  if (ensureEnv env).length > 0 then
    { success := false,
      error := some ("Missing required environment variables: "
        ++ String.intercalate ", " (ensureEnv env)),
      result := none, log := cloneStepLog, status := 500 }
  else
    match req with
    | .error e => catchHandler cloneStepLog e
    | .ok pj => postParsed pj o

/-- The full sequence of tracker mutations one validated run performs: the
pipeline updates of the try block followed, on failure, by the error marking
the catch block performs on the stage found working. -/
def runAllUpdatesOf : List Update × Except ExnVal RunResult → List Update
  | (updates, .ok _) => updates
  | (updates, .error e) =>
    match (updates.foldl applyUpdate cloneStepLog).find? isWorking with
    | some failingStep => updates ++ [⟨failingStep.id, .error, some (messageOf e)⟩]
    | none => updates

/-- Tracker mutations of one validated run, in order. -/
def runAllUpdates (r : RequestBody) (o : Oracle) : List Update :=
  runAllUpdatesOf (pipelineUpdates r o)

/-- Every tracker state one validated run passes through, starting from the
fresh idle log. -/
def runStates (r : RequestBody) (o : Oracle) : List (List StepLog) :=
  List.scanl applyUpdate cloneStepLog (runAllUpdates r o)

/-- Statuses of a stage list, in order. -/
def stageStatuses (log : List StepLog) : List StepStatus :=
  log.map (fun s => s.status)

/-- Status pattern of a run that failed at stage index `k`: done before,
error at `k`, idle after. -/
def failurePattern (k : Nat) : List StepStatus :=
  (List.range 4).map (fun i => if i < k then .done else if i = k then .error else .idle)

/-- Detail of the stage at index `k`. -/
def detailAt (log : List StepLog) (k : Nat) : Option (Option String) :=
  (log.get? k).map (fun s => s.detail)

/-- Legal single-stage evolution between two adjacent tracker states: a stage
either keeps its status or follows `idle` to `working` to (`done` or
`error`); terminal statuses never change. -/
def legalStatusStep : StepStatus → StepStatus → Bool
  | .idle, .idle => true
  | .idle, .working => true
  | .working, .working => true
  | .working, .done => true
  | .working, .error => true
  | .done, .done => true
  | .error, .error => true
  | _, _ => false

/-- Legal evolution between two adjacent tracker states: same length and a
legal per-stage status step at every position. -/
def legalLogStep (a b : List StepLog) : Bool :=
  (a.length == b.length)
    && (List.zipWith legalStatusStep (stageStatuses a) (stageStatuses b)).all id

/-- Every adjacent pair of tracker states is a legal evolution. -/
def legalTrace : List (List StepLog) → Bool
  | [] => true
  | [_] => true
  | a :: b :: rest => legalLogStep a b && legalTrace (b :: rest)

/-- Every tracker state has at most one working stage. -/
def boundedWorking : List (List StepLog) → Bool
  | [] => true
  | log :: rest => Nat.ble (log.countP isWorking) 1 && boundedWorking rest

/-! ## Helper lemmas -/

/-- The working test agrees with the working status. -/
lemma isWorking_iff (s : StepLog) : isWorking s = true ↔ s.status = .working := by
  rcases s with ⟨id, label, st, d⟩
  cases st <;> simp [isWorking]

/-- setStepStatus never changes the id column. -/
lemma setStepStatus_map_id (log : List StepLog) (id : String) (st : StepStatus)
    (d : Option String) :
    (setStepStatus log id st d).map (fun s => s.id) = log.map (fun s => s.id) := by
  induction log with
  | nil => rfl
  | cons e rest ih =>
    by_cases h : e.id = id
    · simp [setStepStatus, h]
    · simp [setStepStatus, h, ih]

/-- Folding tracker updates never changes the id column. -/
lemma foldl_applyUpdate_map_id (us : List Update) : ∀ log : List StepLog,
    ((us.foldl applyUpdate log).map (fun s => s.id)) = log.map (fun s => s.id) := by
  induction us with
  | nil => intro log; rfl
  | cons u rest ih =>
    intro log
    rw [List.foldl_cons, ih, applyUpdate, setStepStatus_map_id]

/-- The catch block never changes the id column. -/
lemma catchHandler_map_id (log : List StepLog) (e : ExnVal) :
    (catchHandler log e).log.map (fun s => s.id) = log.map (fun s => s.id) := by
  unfold catchHandler
  cases hf : log.find? isWorking with
  | none => simp [hf]
  | some s => simp [hf, setStepStatus_map_id]

/-- With a required variable missing, POST answers the configuration error
without looking at the request or the oracle. -/
lemma POST_envMissing (env : String → Option String) (req : Except ExnVal ParsedJson)
    (o : Oracle) (h : ensureEnv env ≠ []) :
    POST env req o =
      { success := false,
        error := some ("Missing required environment variables: "
          ++ String.intercalate ", " (ensureEnv env)),
        result := none, log := cloneStepLog, status := 500 } := by
  have hlen : (ensureEnv env).length > 0 := List.length_pos.mpr h
  simp [POST, hlen]

/-- With the environment complete, a body-read rejection goes to the catch
block over the fresh log. -/
lemma POST_envOk_err (env : String → Option String) (e : ExnVal) (o : Oracle)
    (h : ensureEnv env = []) :
    POST env (.error e) o = catchHandler cloneStepLog e := by
  simp [POST, h]

/-- With the environment complete, a parsed body continues into validation. -/
lemma POST_envOk_ok (env : String → Option String) (pj : ParsedJson) (o : Oracle)
    (h : ensureEnv env = []) :
    POST env (.ok pj) o = postParsed pj o := by
  simp [POST, h]

/-- The log of a validated run is exactly the fold of the full update
sequence of that run over the fresh log. -/
lemma postValidated_log (r : RequestBody) (o : Oracle) :
    (postValidated r o).log = (runAllUpdates r o).foldl applyUpdate cloneStepLog := by
  unfold postValidated runAllUpdates runAllUpdatesOf
  rcases hrun : pipelineUpdates r o with ⟨us, out⟩
  cases out with
  | ok res => rfl
  | error e =>
    cases hf : (us.foldl applyUpdate cloneStepLog).find? isWorking with
    | none => simp [catchHandler, hf]
    | some s => simp [catchHandler, hf, List.foldl_append, applyUpdate]

/-- Exhaustive shape analysis of one validated run: the try block either
performs the eight working/done updates in stage order and returns, or it
performs the updates of the completed stages followed by the working update
of the failing stage and throws. -/
lemma pipelineUpdates_shape (r : RequestBody) (o : Oracle) :
    (∃ e, pipelineUpdates r o =
      ([⟨"script", .working, some "Drafting narration..."⟩], .error e))
  ∨ (∃ e d1, pipelineUpdates r o =
      ([⟨"script", .working, some "Drafting narration..."⟩,
        ⟨"script", .done, some d1⟩,
        ⟨"enhance", .working, some "Polishing presentation..."⟩], .error e))
  ∨ (∃ e d1 d2, pipelineUpdates r o =
      ([⟨"script", .working, some "Drafting narration..."⟩,
        ⟨"script", .done, some d1⟩,
        ⟨"enhance", .working, some "Polishing presentation..."⟩,
        ⟨"enhance", .done, some d2⟩,
        ⟨"video", .working, some "Rendering narration and visuals..."⟩], .error e))
  ∨ (∃ e d1 d2 d3, pipelineUpdates r o =
      ([⟨"script", .working, some "Drafting narration..."⟩,
        ⟨"script", .done, some d1⟩,
        ⟨"enhance", .working, some "Polishing presentation..."⟩,
        ⟨"enhance", .done, some d2⟩,
        ⟨"video", .working, some "Rendering narration and visuals..."⟩,
        ⟨"video", .done, some d3⟩,
        ⟨"upload", .working, some "Uploading to YouTube..."⟩], .error e))
  ∨ (∃ res d1 d2 d3 d4, pipelineUpdates r o =
      ([⟨"script", .working, some "Drafting narration..."⟩,
        ⟨"script", .done, some d1⟩,
        ⟨"enhance", .working, some "Polishing presentation..."⟩,
        ⟨"enhance", .done, some d2⟩,
        ⟨"video", .working, some "Rendering narration and visuals..."⟩,
        ⟨"video", .done, some d3⟩,
        ⟨"upload", .working, some "Uploading to YouTube..."⟩,
        ⟨"upload", .done, some d4⟩], .ok res)) := by
  cases h1 : generateScriptDraft o.scriptContent with
  | error e => exact Or.inl ⟨e, by simp [pipelineUpdates, h1]⟩
  | ok scriptDraft =>
    cases h2 : enhanceScript o.enhanceContent with
    | error e =>
      exact Or.inr (Or.inl ⟨e,
        "Draft complete (" ++ toString (jsSplitWs scriptDraft).length ++ " words).",
        by simp [pipelineUpdates, h1, h2]⟩)
    | ok enhancedScript =>
      cases h3 : generateAssets o.speechAudio o.imagePayload with
      | error e =>
        exact Or.inr (Or.inr (Or.inl ⟨e,
          "Draft complete (" ++ toString (jsSplitWs scriptDraft).length ++ " words).",
          "Enhanced script ready (" ++ toString (jsSplitWs enhancedScript).length ++ " words).",
          by simp [pipelineUpdates, h1, h2, h3]⟩))
      | ok pr =>
        obtain ⟨audioBuffer, imageBuffer⟩ := pr
        cases h4 : (synthesizeVideo audioBuffer imageBuffer o.composer).result with
        | error e =>
          exact Or.inr (Or.inr (Or.inl ⟨e,
            "Draft complete (" ++ toString (jsSplitWs scriptDraft).length ++ " words).",
            "Enhanced script ready (" ++ toString (jsSplitWs enhancedScript).length ++ " words).",
            by simp [pipelineUpdates, h1, h2, h3, h4]⟩))
        | ok videoBuffer =>
          cases h5 : uploadToYouTube (uploadTitle r.topic r.tone)
              (uploadDescription enhancedScript r.callToAction r.audience)
              (uploadTags r.topic) videoBuffer o.uploadVideoId with
          | error e =>
            exact Or.inr (Or.inr (Or.inr (Or.inl ⟨e,
              "Draft complete (" ++ toString (jsSplitWs scriptDraft).length ++ " words).",
              "Enhanced script ready (" ++ toString (jsSplitWs enhancedScript).length ++ " words).",
              "Video rendered (" ++ mbString videoBuffer.length ++ " MB).",
              by simp [pipelineUpdates, h1, h2, h3, h4, h5]⟩)))
          | ok youtubeUrl =>
            exact Or.inr (Or.inr (Or.inr (Or.inr
              ⟨{ scriptDraft := scriptDraft, enhancedScript := enhancedScript,
                 videoUrl := "data:video/mp4;base64," ++ b64encode videoBuffer,
                 youtubeUrl := youtubeUrl },
              "Draft complete (" ++ toString (jsSplitWs scriptDraft).length ++ " words).",
              "Enhanced script ready (" ++ toString (jsSplitWs enhancedScript).length ++ " words).",
              "Video rendered (" ++ mbString videoBuffer.length ++ " MB).",
              "Published to " ++ youtubeUrl ++ ".",
              by simp [pipelineUpdates, h1, h2, h3, h4, h5]⟩)))

/-! ## Concrete inputs used by witnesses and counterexamples -/

/-- Environment with every required variable set. -/
def envW : String → Option String := fun _ => some "configured"

/-- Valid request body (concrete scenario A of the spec). -/
def bodyW : RequestBody :=
  ⟨"History of bridges", "Educational", 120, "General", "Subscribe!"⟩

/-- Request body whose topic has 5 characters (concrete scenario C). -/
def bodyShortW : RequestBody :=
  ⟨"Hello", "Educational", 120, "General", "Subscribe!"⟩

/-- Composer oracle in which every filesystem and muxing step succeeds. -/
def composerW : ComposerOracle := ⟨.ok (), .ok (), .ok (), .ok (), .ok [1, 2], .ok ()⟩

/-- Composer oracle in which the muxing step fails. -/
def composerMuxFailW : ComposerOracle :=
  ⟨.ok (), .ok (), .ok (), .error (some "ffmpeg exited with code 1"), .ok [9], .ok ()⟩

/-- Oracle in which every external call succeeds. -/
def oracleW : Oracle :=
  ⟨.ok (some "Hook. Three segments. Closing."), .ok (some "Polished narration."),
    .ok [0, 1], .ok (some "QUJD"), composerW, .ok (some "abc123")⟩

/-- Oracle whose script call rejects with an Error carrying an empty message. -/
def oracleScriptEmptyMsgW : Oracle :=
  { oracleW with scriptContent := .error (some "") }

/-- Oracle whose script call rejects with an ordinary error message. -/
def oracleScriptFailW : Oracle :=
  { oracleW with scriptContent := .error (some "OpenAI quota exceeded") }

/-- Oracle whose upload call rejects. -/
def oracleUploadFailW : Oracle :=
  { oracleW with uploadVideoId := .error (some "YouTube API offline") }

/-! ## Claim theorems -/

/-- C1, counterexample.  The claim asserts that the failing stage always
reports a NON-EMPTY detail.  The catch block copies `error.message` into the
detail verbatim (source lines 384-388), so an external rejection whose Error
message is the empty string yields an error-status stage whose detail is the
empty string: here the script call rejects with message `""` and the returned
log marks stage `script` as `error` with detail `some ""`. -/
theorem empty_message_detail_cex :
    (POST envW (.ok (.typed bodyW)) oracleScriptEmptyMsgW).log =
      [⟨"script", "Generate base script", .error, some ""⟩,
       ⟨"enhance", "Enhance script", .idle, none⟩,
       ⟨"video", "Render video", .idle, none⟩,
       ⟨"upload", "Publish to YouTube", .idle, none⟩] := by
  rfl

/-- C1, amended: in every validated run whose pipeline throws after marking a
stage working, the returned log is done at every stage before the failing
one, error at the failing stage with detail EQUAL TO THE EXCEPTION MESSAGE
(the fixed fallback text for a non-Error throw) — non-empty only when that
message is non-empty — and idle at every stage after it.  The failing stage
index is the number of completed stages, which is `us.length / 2` since every
completed stage contributes a working and a done update and the failing stage
contributes its working update. -/
theorem failure_attribution (env : String → Option String) (pj : ParsedJson)
    (r : RequestBody) (o : Oracle) (us : List Update) (e : ExnVal)
    (henv : ensureEnv env = []) (hp : safeParse pj = .ok r)
    (hrun : pipelineUpdates r o = (us, .error e)) :
    us.length / 2 < 4
    ∧ stageStatuses (POST env (.ok pj) o).log = failurePattern (us.length / 2)
    ∧ detailAt (POST env (.ok pj) o).log (us.length / 2) = some (some (messageOf e)) := by
  have hpost : POST env (.ok pj) o = postValidated r o := by
    rw [POST_envOk_ok env pj o henv]
    unfold postParsed
    rw [hp]
  rw [hpost]
  rcases pipelineUpdates_shape r o with ⟨e', h⟩ | ⟨e', d1, h⟩ | ⟨e', d1, d2, h⟩
    | ⟨e', d1, d2, d3, h⟩ | ⟨res, d1, d2, d3, d4, h⟩ <;> rw [hrun] at h
  · injection h with hus hout
    injection hout with he
    subst hus
    subst he
    have hfold : (([⟨"script", .working, some "Drafting narration..."⟩] : List Update).foldl
          applyUpdate cloneStepLog)
        = [⟨"script", "Generate base script", .working, some "Drafting narration..."⟩,
           ⟨"enhance", "Enhance script", .idle, none⟩,
           ⟨"video", "Render video", .idle, none⟩,
           ⟨"upload", "Publish to YouTube", .idle, none⟩] := rfl
    refine ⟨by norm_num, ?_, ?_⟩ <;>
      · simp only [postValidated, hrun, hfold, List.length_cons, List.length_nil]
        rfl
  · injection h with hus hout
    injection hout with he
    subst hus
    subst he
    have hfold : (([⟨"script", .working, some "Drafting narration..."⟩,
          ⟨"script", .done, some d1⟩,
          ⟨"enhance", .working, some "Polishing presentation..."⟩] : List Update).foldl
          applyUpdate cloneStepLog)
        = [⟨"script", "Generate base script", .done, some d1⟩,
           ⟨"enhance", "Enhance script", .working, some "Polishing presentation..."⟩,
           ⟨"video", "Render video", .idle, none⟩,
           ⟨"upload", "Publish to YouTube", .idle, none⟩] := rfl
    refine ⟨by norm_num, ?_, ?_⟩ <;>
      · simp only [postValidated, hrun, hfold, List.length_cons, List.length_nil]
        rfl
  · injection h with hus hout
    injection hout with he
    subst hus
    subst he
    have hfold : (([⟨"script", .working, some "Drafting narration..."⟩,
          ⟨"script", .done, some d1⟩,
          ⟨"enhance", .working, some "Polishing presentation..."⟩,
          ⟨"enhance", .done, some d2⟩,
          ⟨"video", .working, some "Rendering narration and visuals..."⟩] : List Update).foldl
          applyUpdate cloneStepLog)
        = [⟨"script", "Generate base script", .done, some d1⟩,
           ⟨"enhance", "Enhance script", .done, some d2⟩,
           ⟨"video", "Render video", .working, some "Rendering narration and visuals..."⟩,
           ⟨"upload", "Publish to YouTube", .idle, none⟩] := rfl
    refine ⟨by norm_num, ?_, ?_⟩ <;>
      · simp only [postValidated, hrun, hfold, List.length_cons, List.length_nil]
        rfl
  · injection h with hus hout
    injection hout with he
    subst hus
    subst he
    have hfold : (([⟨"script", .working, some "Drafting narration..."⟩,
          ⟨"script", .done, some d1⟩,
          ⟨"enhance", .working, some "Polishing presentation..."⟩,
          ⟨"enhance", .done, some d2⟩,
          ⟨"video", .working, some "Rendering narration and visuals..."⟩,
          ⟨"video", .done, some d3⟩,
          ⟨"upload", .working, some "Uploading to YouTube..."⟩] : List Update).foldl
          applyUpdate cloneStepLog)
        = [⟨"script", "Generate base script", .done, some d1⟩,
           ⟨"enhance", "Enhance script", .done, some d2⟩,
           ⟨"video", "Render video", .done, some d3⟩,
           ⟨"upload", "Publish to YouTube", .working, some "Uploading to YouTube..."⟩] := rfl
    refine ⟨by norm_num, ?_, ?_⟩ <;>
      · simp only [postValidated, hrun, hfold, List.length_cons, List.length_nil]
        rfl
  · injection h with hus hout
    exact Except.noConfusion hout

/-- C1, witness: a run whose script call rejects instantiates the amended
theorem; its hypotheses evaluate by rfl. -/
theorem failure_attribution_witness :
    ([(⟨"script", .working, some "Drafting narration..."⟩ : Update)]).length / 2 < 4
    ∧ stageStatuses (POST envW (.ok (.typed bodyW)) oracleScriptFailW).log
        = failurePattern (([(⟨"script", .working, some "Drafting narration..."⟩ : Update)]).length / 2)
    ∧ detailAt (POST envW (.ok (.typed bodyW)) oracleScriptFailW).log
        (([(⟨"script", .working, some "Drafting narration..."⟩ : Update)]).length / 2)
        = some (some (messageOf (some "OpenAI quota exceeded"))) :=
  failure_attribution envW (.typed bodyW) bodyW oracleScriptFailW
    [⟨"script", .working, some "Drafting narration..."⟩]
    (some "OpenAI quota exceeded") rfl rfl rfl

/-- C2: for every request — environment complete or not, body readable,
malformed or valid, pipeline succeeding or failing — the response carries a
Boolean success flag (so it is exactly one of success true and success
false), and the id column of the returned log is always the four stage ids
script, enhance, video, upload in that order. -/
theorem response_log_shape (env : String → Option String)
    (req : Except ExnVal ParsedJson) (o : Oracle) :
    ((POST env req o).log.map (fun s => s.id) = ["script", "enhance", "video", "upload"])
    ∧ ((POST env req o).success = true ∨ (POST env req o).success = false) := by
  constructor
  · have hclone : cloneStepLog.map (fun s => s.id) = ["script", "enhance", "video", "upload"] := rfl
    by_cases hE : ensureEnv env = []
    · cases req with
      | error e =>
        rw [POST_envOk_err env e o hE]
        exact (catchHandler_map_id cloneStepLog e).trans hclone
      | ok pj =>
        rw [POST_envOk_ok env pj o hE]
        cases hp : safeParse pj with
        | error issues =>
          have hpp : postParsed pj o =
              { success := false, error := some (String.intercalate "; " issues),
                result := none, log := cloneStepLog, status := 400 } := by
            unfold postParsed
            rw [hp]
          rw [hpp]
          exact hclone
        | ok r =>
          have hpp : postParsed pj o = postValidated r o := by
            unfold postParsed
            rw [hp]
          rw [hpp]
          unfold postValidated
          rcases hrun : pipelineUpdates r o with ⟨us, out⟩
          cases out with
          | ok res => exact (foldl_applyUpdate_map_id us cloneStepLog).trans hclone
          | error e =>
            exact (catchHandler_map_id (us.foldl applyUpdate cloneStepLog) e).trans
              ((foldl_applyUpdate_map_id us cloneStepLog).trans hclone)
    · rw [POST_envMissing env req o hE]
      exact hclone
  · cases h : (POST env req o).success
    · exact Or.inr rfl
    · exact Or.inl rfl

/-- C3: once the temporary workspace has been created, every exit path of
synthesizeVideo — normal completion, muxing failure, read failure — invokes
the best-effort deletion of the workspace before returning; the workspace is
absent afterwards whenever the deletion operation itself succeeds; and the
outcome of the deletion never changes the returned or rethrown value, so a
deletion error is swallowed and never replaces the originating error. -/
theorem synthesizeVideo_cleanup (audioBuffer imageBuffer : List Nat)
    (co : ComposerOracle) (h : co.mkdtemp = .ok ()) :
    (synthesizeVideo audioBuffer imageBuffer co).rmInvoked = true
    ∧ (co.rm = .ok () → (synthesizeVideo audioBuffer imageBuffer co).tempDirExists = false)
    ∧ (∀ rmOutcome, (synthesizeVideo audioBuffer imageBuffer { co with rm := rmOutcome }).result
        = (synthesizeVideo audioBuffer imageBuffer co).result) := by
  refine ⟨?_, ?_, ?_⟩
  · simp [synthesizeVideo, h]
  · intro hrm
    simp [synthesizeVideo, h, hrm]
  · intro rmOutcome
    simp only [synthesizeVideo, h]
    rfl

/-- C3, witness: a muxing failure still invokes the deletion, leaves no
workspace behind, and keeps its own error when the deletion fails too. -/
theorem synthesizeVideo_cleanup_witness :
    (synthesizeVideo [1] [2] composerMuxFailW).rmInvoked = true
    ∧ (synthesizeVideo [1] [2] composerMuxFailW).tempDirExists = false
    ∧ (synthesizeVideo [1] [2] { composerMuxFailW with rm := .error (some "EBUSY") }).result
        = (synthesizeVideo [1] [2] composerMuxFailW).result :=
  ⟨(synthesizeVideo_cleanup [1] [2] composerMuxFailW rfl).1,
   (synthesizeVideo_cleanup [1] [2] composerMuxFailW rfl).2.1 rfl,
   (synthesizeVideo_cleanup [1] [2] composerMuxFailW rfl).2.2 (.error (some "EBUSY"))⟩

/-- C4, counterexample.  The claim asserts that generateAssets fails whenever
the audio would be empty.  The source validates only the image payload
(source lines 187-190) and never checks the audio buffer, so a speech call
that resolves with zero bytes flows through: with empty audio and image
payload "QUJD" the call RETURNS a pair whose audio component is empty instead
of failing. -/
theorem generateAssets_empty_audio_cex :
    generateAssets (.ok []) (.ok (some "QUJD")) = .ok ([], [65, 66, 67]) := by
  rfl

/-- C4, amended: generateAssets never returns a pair built from an absent or
empty image payload — if the image service returns no payload it fails with
the image-generation error, and a rejection of either service call
propagates — but the audio buffer is not validated and may be empty in a
returned pair. -/
theorem generateAssets_image_guard (speechResp : Except ExnVal (List Nat))
    (imageResp : Except ExnVal (Option String)) :
    (∀ pr, generateAssets speechResp imageResp = .ok pr →
      ∃ audioBuffer b64, speechResp = .ok audioBuffer ∧ imageResp = .ok (some b64)
        ∧ b64 ≠ "" ∧ pr = (audioBuffer, b64decode b64))
    ∧ (∀ audioBuffer, speechResp = .ok audioBuffer →
        imageResp = .ok none ∨ imageResp = .ok (some "") →
        generateAssets speechResp imageResp = .error (some "Image generation failed.")) := by
  constructor
  · intro pr hpr
    cases speechResp with
    | error e => simp [generateAssets] at hpr
    | ok audioBuffer =>
      cases imageResp with
      | error e => simp [generateAssets] at hpr
      | ok imagePayload =>
        cases imagePayload with
        | none => simp [generateAssets] at hpr
        | some b64 =>
          by_cases hb : b64 == ""
          · simp [generateAssets, hb] at hpr
          · refine ⟨audioBuffer, b64, rfl, rfl, ?_, ?_⟩
            · intro hEq
              exact hb (by simp [hEq])
            · simp [generateAssets, hb] at hpr
              exact hpr.symm
  · intro audioBuffer ha him
    subst ha
    rcases him with rfl | rfl
    · rfl
    · rfl

/-- C4, witness for the amended theorem: an absent image payload makes the
call fail with the image-generation error. -/
theorem generateAssets_image_guard_witness :
    generateAssets (.ok [7]) (.ok none) = .error (some "Image generation failed.") :=
  (generateAssets_image_guard (.ok [7]) (.ok none)).2 [7] rfl (Or.inl rfl)

/-- C5: when a required credential is missing, or the body parses but fails
schema validation, POST answers success false with the fresh all-idle log —
no stage is working or error — and the response does not depend on the
oracle of external calls, so no external call influences (or is needed for)
the outcome. -/
theorem precondition_abort (env : String → Option String)
    (req : Except ExnVal ParsedJson) (o o₂ : Oracle)
    (h : ensureEnv env ≠ []
      ∨ ∃ pj issues, req = Except.ok pj ∧ safeParse pj = Except.error issues) :
    (POST env req o).success = false
    ∧ (POST env req o).log = cloneStepLog
    ∧ (∀ s ∈ (POST env req o).log, s.status = .idle)
    ∧ POST env req o = POST env req o₂ := by
  have hidle : ∀ s ∈ cloneStepLog, s.status = StepStatus.idle := by decide
  by_cases hE : ensureEnv env = []
  · rcases h with hne | ⟨pj, issues, rfl, hiss⟩
    · exact absurd hE hne
    · have hpost : ∀ o' : Oracle, POST env (.ok pj) o' =
          { success := false, error := some (String.intercalate "; " issues),
            result := none, log := cloneStepLog, status := 400 } := by
        intro o'
        rw [POST_envOk_ok env pj o' hE]
        unfold postParsed
        rw [hiss]
      rw [hpost o, hpost o₂]
      exact ⟨rfl, rfl, hidle, rfl⟩
  · rw [POST_envMissing env req o hE, POST_envMissing env req o₂ hE]
    exact ⟨rfl, rfl, hidle, rfl⟩

/-- C5, witness: the five-character topic of concrete scenario C is rejected
with the all-idle log, independently of the oracle. -/
theorem precondition_abort_witness :
    (POST envW (.ok (.typed bodyShortW)) oracleW).success = false
    ∧ (POST envW (.ok (.typed bodyShortW)) oracleW).log = cloneStepLog
    ∧ POST envW (.ok (.typed bodyShortW)) oracleW
        = POST envW (.ok (.typed bodyShortW)) oracleUploadFailW :=
  ⟨(precondition_abort envW (.ok (.typed bodyShortW)) oracleW oracleUploadFailW
      (Or.inr ⟨.typed bodyShortW, ["Topic must be at least 8 characters."], rfl, rfl⟩)).1,
   (precondition_abort envW (.ok (.typed bodyShortW)) oracleW oracleUploadFailW
      (Or.inr ⟨.typed bodyShortW, ["Topic must be at least 8 characters."], rfl, rfl⟩)).2.1,
   (precondition_abort envW (.ok (.typed bodyShortW)) oracleW oracleUploadFailW
      (Or.inr ⟨.typed bodyShortW, ["Topic must be at least 8 characters."], rfl, rfl⟩)).2.2.2⟩

/-- C6: whatever the lengths of topic, tone, enhanced script, call-to-action
and audience, the title handed to the upload call is at most 95 characters
and the description at most 4800. -/
theorem upload_metadata_bounds (topic tone enhancedScript callToAction audience : String) :
    (uploadTitle topic tone).length ≤ 95
    ∧ (uploadDescription enhancedScript callToAction audience).length ≤ 4800 := by
  constructor
  · show (List.take 95 (videoTitle topic tone).data).length ≤ 95
    rw [List.length_take]
    exact min_le_left _ _
  · show (List.take 4800 (videoDescription enhancedScript callToAction audience).data).length ≤ 4800
    rw [List.length_take]
    exact min_le_left _ _

/-- Identifier carried by a successful upload response, empty otherwise. -/
def respVideoId : Except ExnVal (Option String) → String
  | .ok (some v) => v
  | _ => ""

/-- C7: a publish response without an identifier makes the operation fail
with the publish error rather than return, and every successful return is the
canonical watch URL built from the identifier the response carried. -/
theorem uploadToYouTube_contract (title description : String) (tags : List String)
    (videoBuffer : List Nat) (resp : Except ExnVal (Option String)) :
    (resp = .ok none →
      uploadToYouTube title description tags videoBuffer resp
        = .error (some "Unable to retrieve YouTube video ID after upload."))
    ∧ (∀ url, uploadToYouTube title description tags videoBuffer resp = .ok url →
        resp = .ok (some (respVideoId resp)) ∧ url = youtubeWatchUrl (respVideoId resp)) := by
  constructor
  · rintro rfl
    rfl
  · intro url hurl
    cases resp with
    | error e => simp [uploadToYouTube] at hurl
    | ok idOpt =>
      cases idOpt with
      | none => simp [uploadToYouTube] at hurl
      | some v =>
        by_cases hv : v == ""
        · simp [uploadToYouTube, hv] at hurl
        · simp [uploadToYouTube, hv] at hurl
          exact ⟨rfl, hurl.symm⟩

/-- C7, witness: an identifier-free success fails with the publish error, and
a response carrying an identifier yields exactly its watch URL. -/
theorem uploadToYouTube_contract_witness :
    uploadToYouTube "t" "d" [] [0] (.ok none)
        = .error (some "Unable to retrieve YouTube video ID after upload.")
    ∧ ((.ok (some "dQw4w9WgXcQ") : Except ExnVal (Option String))
          = .ok (some (respVideoId (.ok (some "dQw4w9WgXcQ"))))
        ∧ youtubeWatchUrl "dQw4w9WgXcQ"
          = youtubeWatchUrl (respVideoId (.ok (some "dQw4w9WgXcQ")))) :=
  ⟨(uploadToYouTube_contract "t" "d" [] [0] (.ok none)).1 rfl,
   (uploadToYouTube_contract "t" "d" [] [0] (.ok (some "dQw4w9WgXcQ"))).2
     (youtubeWatchUrl "dQw4w9WgXcQ") rfl⟩

/-- C8: over every tracker state a validated run passes through — the fresh
log, each pipeline update, and the error marking of the catch block — every
adjacent pair of states changes stage statuses only along idle to working and
working to done or error (a terminal status never changes), and every state
has at most one working stage, in failing runs as well as healthy ones. -/
theorem tracker_discipline (r : RequestBody) (o : Oracle) :
    legalTrace (runStates r o) = true ∧ boundedWorking (runStates r o) = true := by
  rcases pipelineUpdates_shape r o with ⟨e, h⟩ | ⟨e, d1, h⟩ | ⟨e, d1, d2, h⟩
    | ⟨e, d1, d2, d3, h⟩ | ⟨res, d1, d2, d3, d4, h⟩ <;>
    exact ⟨by simp only [runStates, runAllUpdates]; rw [h]; rfl,
           by simp only [runStates, runAllUpdates]; rw [h]; rfl⟩

/-- C9: the tracker update is a total function (it cannot throw in this pure
embedding, mirroring that the source returns early instead of throwing), and
when no stage carries the requested id it returns the list unchanged. -/
theorem setStepStatus_absent_noop (log : List StepLog) (id : String)
    (status : StepStatus) (detail : Option String) (h : ∀ s ∈ log, s.id ≠ id) :
    setStepStatus log id status detail = log := by
  induction log with
  | nil => rfl
  | cons e rest ih =>
    have he : ¬ e.id = id := h e (List.mem_cons_self e rest)
    simp only [setStepStatus, if_neg he]
    rw [ih (fun s hs => h s (List.mem_cons_of_mem e hs))]

/-- C9, witness: an id typo leaves the fresh log untouched. -/
theorem setStepStatus_absent_noop_witness :
    setStepStatus cloneStepLog "thumbnail" .working (some "x") = cloneStepLog :=
  setStepStatus_absent_noop cloneStepLog "thumbnail" .working (some "x") (by decide)

/-- C10: when an exception reaches the catch block while no stage is working,
the handler marks nothing: the response is success false with the log exactly
as it was; in particular a body-read failure under a complete environment
answers the fresh all-idle log. -/
theorem catch_without_working_stage (log : List StepLog) (e : ExnVal)
    (env : String → Option String) (o : Oracle)
    (hw : ∀ s ∈ log, s.status ≠ .working) (henv : ensureEnv env = []) :
    ((catchHandler log e).log = log ∧ (catchHandler log e).success = false)
    ∧ ((POST env (.error e) o).log = cloneStepLog
        ∧ (POST env (.error e) o).success = false) := by
  have hfind : log.find? isWorking = none := by
    rw [List.find?_eq_none]
    intro x hx
    simp only [isWorking_iff]
    exact hw x hx
  have hcl : cloneStepLog.find? isWorking = none := rfl
  refine ⟨⟨?_, rfl⟩, ?_, ?_⟩
  · simp [catchHandler, hfind]
  · rw [POST_envOk_err env e o henv]
    simp [catchHandler, hcl]
  · rw [POST_envOk_err env e o henv]
    rfl

/-- C10, witness: a JSON body-read failure with a complete environment. -/
theorem catch_without_working_stage_witness :
    ((catchHandler cloneStepLog (some "Unexpected end of JSON input")).log = cloneStepLog
      ∧ (catchHandler cloneStepLog (some "Unexpected end of JSON input")).success = false)
    ∧ ((POST envW (.error (some "Unexpected end of JSON input")) oracleW).log = cloneStepLog
      ∧ (POST envW (.error (some "Unexpected end of JSON input")) oracleW).success = false) :=
  catch_without_working_stage cloneStepLog (some "Unexpected end of JSON input")
    envW oracleW (by decide) rfl

end Agentic
